import Mathlib

/-!
Shallow embedding of `src/app.py`, a single-file Streamlit front end that
loads a pre-trained classifier, renders a parameter-entry form from a static
schema (`VARIABLE_CONFIG`), and on a button press assembles the entered
values into a one-row record, calls the classifier, and renders a risk label,
a probability, and (when available) a feature-importance ranking.

Modelling choices:
* form values are integers (the widgets use integer bounds and step 1);
* probabilities and model outputs are exact rationals `ℚ`;
* Python exceptions are `Except PyErr`; `try/except AttributeError` and the
  blanket `except Exception` blocks become `match`es on the error value;
* a Streamlit run is a list of `UIEvent`s; `st.stop()` emits `.stopped` and
  truncates the run;
* the model artifact is a record of its dynamically probed capabilities:
  `predict_proba` is `Option`al (absence raises `AttributeError` at the call
  site, as Python attribute lookup does), and so are `feature_importances_`
  and `coef_` (probed with `hasattr`).
-/

namespace SevenApp

/-- Python exception values the script raises or catches. -/
inductive PyErr where
  | attributeError (msg : String)
  | keyError (msg : String)
  | indexError (msg : String)
  | otherError (msg : String)
deriving DecidableEq, Repr

/-- Predicate distinguishing the one exception class the inner
`except AttributeError` handler catches. -/
def PyErr.isAttributeError : PyErr → Bool
  | .attributeError _ => true
  | _ => false

/-- Message carried by the exception, as Python `str(e)`. -/
def PyErr.msg : PyErr → String
  | .attributeError m => m
  | .keyError m => m
  | .indexError m => m
  | .otherError m => m

/-- Observable Streamlit output of one run of the script. -/
inductive UIEvent where
  | success (msg : String)
  | error (msg : String)
  | warning (msg : String)
  | info (msg : String)
  | title (s : String)
  | markdown (s : String)
  | subheader (s : String)
  | numberInput (label : String) (lo hi default : Int)
  | riskHeader (label color : String)
  | write (s : String)
  | barChart (rows : List (String × ℚ))
  | dataframe (rows : List (String × ℚ))
  | sidebarMarkdown (s : String)
  | stopped
deriving DecidableEq, Repr

/-- Recognises `st.error` events (an uncaught-at-that-level failure report). -/
def UIEvent.isError : UIEvent → Bool
  | .error _ => true
  | _ => false

/-- Recognises `st.warning` events. -/
def UIEvent.isWarning : UIEvent → Bool
  | .warning _ => true
  | _ => false

/-- Recognises the bounded numeric input widgets of the parameter form. -/
def UIEvent.isNumberInput : UIEvent → Bool
  | .numberInput _ _ _ _ => true
  | _ => false

/-- Per-parameter entry of `VARIABLE_CONFIG`: bounds, help text, default. -/
structure VarConfig where
  lo : Int
  hi : Int
  description : String
  value : Int
deriving DecidableEq, Repr

/-- The static parameter schema of `app.py` (`VARIABLE_CONFIG`), an ordered
mapping; the key order is the column order the model was trained on. -/
def VARIABLE_CONFIG : List (String × VarConfig) :=
  [ ("Sex", ⟨0, 1, "Patient gender (0=Female, 1=Male)", 0⟩),
    ("ASA scores", ⟨0, 5, "ASA physical status classification", 2⟩),
    ("tumor location", ⟨1, 4, "Tumor location code (1-4)", 2⟩),
    ("Benign or malignant", ⟨0, 1, "Tumor nature (0=Benign, 1=Malignant)", 0⟩),
    ("Admitted to NICU", ⟨0, 1, "NICU admission status", 0⟩),
    ("Duration of surgery", ⟨0, 1, "Surgery duration category", 0⟩),
    ("diabetes", ⟨0, 1, "Diabetes mellitus status", 0⟩),
    ("CHF", ⟨0, 1, "Congestive heart failure", 0⟩),
    ("Functional dependencies", ⟨0, 1, "Functional dependencies", 0⟩),
    ("mFI-5", ⟨0, 5, "Modified Frailty Index", 1⟩),
    ("Type of tumor", ⟨1, 5, "Tumor type code (1-5)", 2⟩) ]

/-- Declaration-order key list, `expected_columns = list(VARIABLE_CONFIG.keys())`. -/
def expected_columns : List String := VARIABLE_CONFIG.map Prod.fst

/-- Raw input mapping with every field at its schema default
(what the form yields when the user changes nothing). -/
def defaultInputs : List (String × Int) :=
  VARIABLE_CONFIG.map (fun fc => (fc.1, fc.2.value))

/-- Input record validity: every schema field present and inside its
`[lo, hi]` bounds (the clamp the number-input widget enforces). -/
def schemaValid (inputs : List (String × Int)) : Prop :=
  ∀ fc ∈ VARIABLE_CONFIG, ∃ v : Int,
    inputs.lookup fc.1 = some v ∧ fc.2.lo ≤ v ∧ v ≤ fc.2.hi

/-- Column re-projection `input_df = input_df[expected_columns]`: select the
named columns in the given order; a missing column raises `KeyError`. -/
def selectColumns (df : List (String × Int)) : List String → Except PyErr (List (String × Int))
  | [] => .ok []
  | c :: cs =>
    match df.lookup c with
    | none => .error (.keyError c)
    | some v =>
      match selectColumns df cs with
      | .error e => .error e
      | .ok rest => .ok ((c, v) :: rest)

/-- The loaded classifier artifact, as its dynamically probed capabilities.
`predict_proba` is `Option`al: `none` means the attribute is absent, so the
call site raises `AttributeError`; when present the call itself may still
raise. `feature_importances_` and `coef_` are plain attributes probed with
`hasattr`. -/
structure Model where
  predict_proba : Option (List (String × Int) → Except PyErr (List (List ℚ)))
  predict : List (String × Int) → Except PyErr (List ℚ)
  feature_importances_ : Option (List ℚ)
  coef_ : Option (List (List ℚ))

/-- Body of the inner `try`: `proba = model.predict_proba(input_df)[0][1]`.
A missing attribute raises `AttributeError`; out-of-range indexing raises
`IndexError`. -/
def probaCall (model : Model) (df : List (String × Int)) : Except PyErr ℚ :=
  match model.predict_proba with
  | none => .error (.attributeError "object has no attribute \x27predict_proba\x27")
  | some f =>
    match f df with
    | .error e => .error e
    | .ok rows =>
      match rows.get? 0 with
      | none => .error (.indexError "index 0 is out of bounds")
      | some row =>
        match row.get? 1 with
        | none => .error (.indexError "index 1 is out of bounds")
        | some p => .ok p

/-- Body of the `except AttributeError` handler:
`prediction = model.predict(input_df)[0]; proba = prediction`. -/
def fallbackProba (model : Model) (df : List (String × Int)) : Except PyErr ℚ :=
  match model.predict df with
  | .error e => .error e
  | .ok preds =>
    match preds.get? 0 with
    | none => .error (.indexError "index 0 is out of bounds")
    | some p => .ok p

/-- The whole `try/except AttributeError` around the probability computation:
only an `AttributeError` from the `predict_proba` attempt triggers the
fallback; any other exception propagates. -/
def computeProba (model : Model) (df : List (String × Int)) : Except PyErr ℚ :=
  match probaCall model df with
  | .ok p => .ok p
  | .error e => if e.isAttributeError then fallbackProba model df else .error e

/-- Risk label derivation: `"High Risk" if proba > 0.5 else "Low Risk"`. -/
def riskLevel (p : ℚ) : String := if p > 1/2 then "High Risk" else "Low Risk"

/-- Colour cue paired with the label: red above the threshold, green otherwise. -/
def riskColor (p : ℚ) : String := if p > 1/2 then "#FF4B4B" else "#00CC96"

/-- Python `f"{proba:.1%}"`: the value times 100, rendered to one decimal
place with a trailing percent sign (over exact rationals, rounding to the
nearest tenth of a percent). -/
def formatPercent (p : ℚ) : String :=
  let n : Int := round (p * 1000)
  toString (n / 10) ++ "." ++ toString ((n % 10).natAbs) ++ "%"

/-- Importance retrieval: `feature_importances_` if that attribute exists,
else the first row `coef_[0]` of the coefficients, else an `AttributeError`
is raised. -/
def retrieveImportance (model : Model) : Except PyErr (List ℚ) :=
  match model.feature_importances_ with
  | some imp => .ok imp
  | none =>
    match model.coef_ with
    | some m =>
      match m.get? 0 with
      | some row => .ok row
      | none => .error (.indexError "index 0 is out of bounds")
    | none => .error (.attributeError "Feature importance not available")

/-- Body of the importance `try` block: retrieve the vector, build the
two-column frame pairing it positionally with `expected_columns` (a length
mismatch raises `ValueError` in `pd.DataFrame`), and sort descending by the
importance value. -/
def importanceAttempt (model : Model) : Except PyErr (List (String × ℚ)) :=
  match retrieveImportance model with
  | .error e => .error e
  | .ok importance =>
    if importance.length = expected_columns.length then
      .ok (List.insertionSort (fun a b : String × ℚ => b.2 ≤ a.2)
        (expected_columns.zip importance))
    else
      .error (.otherError "All arrays must be of the same length")

/-- The `Key Risk Factors` block: on success a bar chart and a table of the
sorted frame; on any exception a non-fatal warning plus an info note. -/
def importanceSection (model : Model) : List UIEvent :=
  match importanceAttempt model with
  | .ok importance_df => [.barChart importance_df, .dataframe importance_df]
  | .error e =>
    [.warning ("⚠️ Feature importance not available: " ++ e.msg),
     .info "The model does not provide feature importance data"]

/-- The `Predict Risk` button handler: build the one-row frame from the raw
input mapping, re-project the columns to schema order, compute the
probability (with the `AttributeError` fallback), render the results and the
importance block; any exception escaping those steps is caught by the outer
handler and rendered as two `st.error` messages. -/
def predictHandler (model : Model) (inputs : List (String × Int)) : List UIEvent :=
  match selectColumns inputs expected_columns with
  | .error e =>
    [.error ("❌ Prediction failed: " ++ e.msg),
     .error "Please check your input values and try again"]
  | .ok input_df =>
    match computeProba model input_df with
    | .error e =>
      [.error ("❌ Prediction failed: " ++ e.msg),
       .error "Please check your input values and try again"]
    | .ok proba =>
      [.markdown "---",
       .subheader "Prediction Results",
       .riskHeader (riskLevel proba) (riskColor proba),
       .write ("### Reoperation Probability: " ++ formatPercent proba),
       .markdown "---",
       .subheader "Key Risk Factors"]
      ++ importanceSection model

/-- The parameter-entry form: one bounded integer input per schema entry,
seeded with the schema default. -/
def renderForm : List UIEvent :=
  UIEvent.subheader "Patient Parameters" ::
  VARIABLE_CONFIG.map (fun fc => UIEvent.numberInput fc.1 fc.2.lo fc.2.hi fc.2.value)

/-- Static sidebar documentation rendered at the end of the script. -/
def sidebarEvents : List UIEvent :=
  [.sidebarMarkdown "## System Documentation\n\n### Model Information\n- Algorithm: XGBoost Classifier\n- Training Date: 2023-10-15\n\n### Variable Codes\n- **ASA scores**:\n  0 = Healthy, 5 = Morbund\n- **Tumor location**:\n  1 = Supratentorial extramedullary,\n  2 = Supratentorial intramedullary,\n  3 = Infratentorial extramedullary,\n  4 = Infratentorial intramedullary\n- **Tumor type**:\n  1 = Meningioma,\n  2 = Glioma,\n  3 = Metastasis,\n  4 = Acoustic neuroma,\n  5 = Other",
   .sidebarMarkdown "---",
   .sidebarMarkdown "**Technical Support**: contact@medai.org",
   .sidebarMarkdown "**Version**: 1.4.0"]

/-- One full top-to-bottom run of the script. `joblibOk` is whether the
`import joblib` succeeds, `loadResult` the outcome of
`joblib.load("model.joblib")`, `pressed` whether `st.button` fired this run,
and `inputs` the raw input mapping the widgets produced. `st.stop()` halts
the run: nothing after it is rendered. -/
def runScript (joblibOk : Bool) (loadResult : Except String Model)
    (pressed : Bool) (inputs : List (String × Int)) : List UIEvent :=
  if !joblibOk then
    [.error "❌ joblib not found. This application cannot run without joblib.",
     .error "Please ensure joblib is included in your requirements.txt file",
     .stopped]
  else
    UIEvent.success "✅ joblib successfully imported" ::
    match loadResult with
    | .error e =>
      [.error ("❌ Failed to load model: " ++ e),
       .error "Please ensure \x27model.joblib\x27 exists and is a valid joblib file",
       .stopped]
    | .ok model =>
      [UIEvent.success "✅ Model loaded successfully",
       UIEvent.title "Unplanned Reoperation Risk Prediction System",
       UIEvent.markdown "---"]
      ++ renderForm
      ++ (if pressed then predictHandler model inputs else [])
      ++ sidebarEvents

/-! Helper lemmas shared by several claims. -/

/-- Column re-projection preserves the requested column list as the column
order of its output. -/
theorem selectColumns_map_fst (df : List (String × Int)) :
    ∀ (cols : List String) (out : List (String × Int)),
      selectColumns df cols = .ok out → out.map Prod.fst = cols := by
  intro cols
  induction cols with
  | nil => intro out h; simp only [selectColumns] at h; cases h; rfl
  | cons c cs ih =>
    intro out h
    simp only [selectColumns] at h
    cases hl : df.lookup c with
    | none => rw [hl] at h; cases h
    | some v =>
      rw [hl] at h
      cases hr : selectColumns df cs with
      | error e => rw [hr] at h; cases h
      | ok rest =>
        rw [hr] at h
        cases h
        simpa using ih rest hr

/-- Column re-projection succeeds when every requested column is present in
the raw mapping. -/
theorem selectColumns_ok_of_lookup (df : List (String × Int)) :
    ∀ cols : List String, (∀ c ∈ cols, (df.lookup c).isSome) →
      ∃ out, selectColumns df cols = .ok out := by
  intro cols
  induction cols with
  | nil => intro _; exact ⟨[], rfl⟩
  | cons c cs ih =>
    intro hall
    obtain ⟨v, hv⟩ := Option.isSome_iff_exists.mp (hall c (by simp))
    obtain ⟨rest, hrest⟩ := ih (fun d hd => hall d (by simp [hd]))
    exact ⟨(c, v) :: rest, by simp only [selectColumns, hv, hrest]⟩

/-- The importance block never emits an `st.error` event: its failures are
downgraded to a warning plus an info note. -/
theorem importanceSection_no_error (model : Model) :
    ∀ e ∈ importanceSection model, e.isError = false := by
  intro e he
  unfold importanceSection at he
  cases hia : importanceAttempt model with
  | ok df =>
    simp only [hia, List.mem_cons, List.not_mem_nil, or_false] at he
    rcases he with rfl | rfl <;> rfl
  | error err =>
    simp only [hia, List.mem_cons, List.not_mem_nil, or_false] at he
    rcases he with rfl | rfl <;> rfl

/-- Successful-path shape of the button handler: the six result events
followed by the importance block. -/
theorem predictHandler_eq_of_ok (model : Model) (inputs input_df : List (String × Int)) (p : ℚ)
    (hsel : selectColumns inputs expected_columns = .ok input_df)
    (hp : computeProba model input_df = .ok p) :
    predictHandler model inputs =
      [.markdown "---",
       .subheader "Prediction Results",
       .riskHeader (riskLevel p) (riskColor p),
       .write ("### Reoperation Probability: " ++ formatPercent p),
       .markdown "---",
       .subheader "Key Risk Factors"]
      ++ importanceSection model := by
  simp only [predictHandler, hsel, hp]

/-- Every schema field is present in `expected_columns`. -/
theorem mem_expected_columns_of_mem (fc : String × VarConfig)
    (h : fc ∈ VARIABLE_CONFIG) : fc.1 ∈ expected_columns :=
  List.mem_map_of_mem Prod.fst h

/-- Concrete percentage rendering at 0.73. -/
theorem formatPercent_73 : formatPercent (73/100) = "73.0%" := by
  have h : round ((73:ℚ)/100 * 1000) = 730 := by rw [round_eq]; norm_num
  rw [formatPercent, h]; rfl

/-- Concrete percentage rendering at 0.5. -/
theorem formatPercent_half : formatPercent (1/2) = "50.0%" := by
  have h : round ((1:ℚ)/2 * 1000) = 500 := by rw [round_eq]; norm_num
  rw [formatPercent, h]; rfl

/-- Concrete percentage rendering at 1 (the fallback displaying a class
label as a percentage). -/
theorem formatPercent_one : formatPercent 1 = "100.0%" := by
  have h : round ((1:ℚ) * 1000) = 1000 := by rw [round_eq]; norm_num
  rw [formatPercent, h]; rfl

/-- Concrete label above the threshold. -/
theorem riskLevel_73 : riskLevel (73/100) = "High Risk" := by
  rw [riskLevel, if_pos]; norm_num

/-- Concrete colour above the threshold. -/
theorem riskColor_73 : riskColor (73/100) = "#FF4B4B" := by
  rw [riskColor, if_pos]; norm_num

/-- Concrete label at the boundary. -/
theorem riskLevel_half : riskLevel (1/2) = "Low Risk" := by
  rw [riskLevel, if_neg]; norm_num

/-- Concrete colour at the boundary. -/
theorem riskColor_half : riskColor (1/2) = "#00CC96" := by
  rw [riskColor, if_neg]; norm_num

/-- Concrete label at probability 1. -/
theorem riskLevel_one : riskLevel 1 = "High Risk" := by
  rw [riskLevel, if_pos]; norm_num

/-- C1: the derived risk label is "High Risk" iff the probability exceeds
0.5, "Low Risk" iff it is at most 0.5; the boundary 0.5 maps to "Low Risk". -/
theorem claim1_risk_label_threshold (p : ℚ) :
    (riskLevel p = "High Risk" ↔ 1/2 < p) ∧
    (riskLevel p = "Low Risk" ↔ p ≤ 1/2) ∧
    riskLevel (1/2) = "Low Risk" := by
  refine ⟨?_, ?_, riskLevel_half⟩ <;> unfold riskLevel <;>
    rcases lt_or_le (1/2 : ℚ) p with h | h
  · simp [h, gt_iff_lt]
  · simp [not_lt.mpr h, gt_iff_lt, not_lt_of_le h]
  · simp [h, gt_iff_lt, not_le_of_lt h]
  · simp [not_lt.mpr h, gt_iff_lt, h]

/-- C3: for every raw input mapping containing the 11 schema parameters (in
any order), the re-projected single-row record handed to the model has its
columns in exactly the schema declaration order. -/
theorem claim3_column_order (inputs : List (String × Int))
    (hall : ∀ c ∈ expected_columns, (inputs.lookup c).isSome) :
    ∃ input_df, selectColumns inputs expected_columns = .ok input_df ∧
      input_df.map Prod.fst = expected_columns := by
  obtain ⟨out, hout⟩ := selectColumns_ok_of_lookup inputs expected_columns hall
  exact ⟨out, hout, selectColumns_map_fst inputs expected_columns out hout⟩

/-- Schema-default raw mapping in reversed insertion order, exercising the
order-independence of the re-projection. -/
def shuffledInputs : List (String × Int) := defaultInputs.reverse

/-- C3 witness: the reversed-order mapping is re-projected into schema
order. -/
theorem claim3_column_order_witness :
    ∃ input_df, selectColumns shuffledInputs expected_columns = .ok input_df ∧
      input_df.map Prod.fst = expected_columns :=
  claim3_column_order shuffledInputs (by decide)

/-- Well-formedness of a `predict_proba` result: it has a first row with at
least the two class columns, all entries probabilities in `[0, 1]`. -/
def wellFormedProbaRow (rows : List (List ℚ)) : Prop :=
  ∃ row, rows.get? 0 = some row ∧ 2 ≤ row.length ∧ ∀ q ∈ row, 0 ≤ q ∧ q ≤ 1

/-- C2: for every schema-valid input record and every model whose
`predict_proba` is defined and returns a well-formed probability row, the
inference step raises nothing (no `st.error` is emitted) and the probability
it extracts lies in `[0, 1]`. -/
theorem claim2_valid_input_no_raise (model : Model) (inputs : List (String × Int))
    (f : List (String × Int) → Except PyErr (List (List ℚ)))
    (hf : model.predict_proba = some f)
    (hvalid : schemaValid inputs)
    (hwf : ∀ df, ∃ rows, f df = .ok rows ∧ wellFormedProbaRow rows) :
    ∃ input_df p, selectColumns inputs expected_columns = .ok input_df ∧
      computeProba model input_df = .ok p ∧ 0 ≤ p ∧ p ≤ 1 ∧
      ∀ e ∈ predictHandler model inputs, e.isError = false := by
  have hall : ∀ c ∈ expected_columns, (inputs.lookup c).isSome := by
    intro c hc
    obtain ⟨fc, hfc, rfl⟩ := List.mem_map.mp hc
    obtain ⟨v, hv, -, -⟩ := hvalid fc hfc
    simp [hv]
  obtain ⟨input_df, hsel⟩ := selectColumns_ok_of_lookup inputs expected_columns hall
  obtain ⟨rows, hrows, hwfr⟩ := hwf input_df
  obtain ⟨row, h0, hlen, hbounds⟩ := hwfr
  have h1 : row.get? 1 = some (row.get ⟨1, by omega⟩) := List.get?_eq_get (by omega)
  have hmem : row.get ⟨1, by omega⟩ ∈ row := List.get_mem row 1 (by omega)
  obtain ⟨hp0, hp1⟩ := hbounds _ hmem
  have hcp : computeProba model input_df = .ok (row.get ⟨1, by omega⟩) := by
    simp only [computeProba, probaCall, hf, hrows, h0, h1]
  refine ⟨input_df, _, hsel, hcp, hp0, hp1, ?_⟩
  rw [predictHandler_eq_of_ok model inputs input_df _ hsel hcp]
  intro e he
  rcases List.mem_append.mp he with h | h
  · simp only [List.mem_cons, List.not_mem_nil, or_false] at h
    rcases h with rfl | rfl | rfl | rfl | rfl | rfl <;> rfl
  · exact importanceSection_no_error model e h

/-- Schema-default record is schema-valid. -/
theorem schemaValid_defaultInputs : schemaValid defaultInputs := by
  intro fc hfc
  fin_cases hfc <;> exact ⟨_, rfl, by decide, by decide⟩

/-- Stub classifier that answers every query with the probability row
`[0.25, 0.75]` and has no importance data. -/
def probRowModel : Model :=
  { predict_proba := some (fun _ => .ok [[1/4, 3/4]])
    predict := fun _ => .ok [1]
    feature_importances_ := none
    coef_ := none }

/-- C2 witness: the schema-default record against `probRowModel`. -/
theorem claim2_valid_input_no_raise_witness :
    ∃ input_df p, selectColumns defaultInputs expected_columns = .ok input_df ∧
      computeProba probRowModel input_df = .ok p ∧ 0 ≤ p ∧ p ≤ 1 ∧
      ∀ e ∈ predictHandler probRowModel defaultInputs, e.isError = false :=
  claim2_valid_input_no_raise probRowModel defaultInputs _ rfl schemaValid_defaultInputs
    (fun _ => ⟨[[1/4, 3/4]], rfl, [1/4, 3/4], rfl, by decide, by
      intro q hq
      simp only [List.mem_cons, List.not_mem_nil, or_false] at hq
      rcases hq with rfl | rfl <;> constructor <;> norm_num⟩)

/-- C4: when the `predict_proba` attempt raises `AttributeError`, the handler
falls back to `model.predict` on the same re-projected record and threshes
and displays its first output element as the probability. -/
theorem claim4_fallback_uses_predict (model : Model) (inputs input_df : List (String × Int))
    (m : String) (preds : List ℚ) (v : ℚ)
    (hsel : selectColumns inputs expected_columns = .ok input_df)
    (hpc : probaCall model input_df = .error (.attributeError m))
    (hpred : model.predict input_df = .ok preds)
    (h0 : preds.get? 0 = some v) :
    computeProba model input_df = .ok v ∧
    UIEvent.riskHeader (riskLevel v) (riskColor v) ∈ predictHandler model inputs ∧
    UIEvent.write ("### Reoperation Probability: " ++ formatPercent v)
      ∈ predictHandler model inputs := by
  have hcp : computeProba model input_df = .ok v := by
    simp only [computeProba, hpc, PyErr.isAttributeError, if_true, fallbackProba, hpred, h0]
  refine ⟨hcp, ?_, ?_⟩ <;>
    rw [predictHandler_eq_of_ok model inputs input_df v hsel hcp] <;> simp

/-- Stub classifier with no `predict_proba` attribute whose plain `predict`
answers 0.7. -/
def fallbackPredictModel : Model :=
  { predict_proba := none
    predict := fun _ => .ok [7/10]
    feature_importances_ := none
    coef_ := none }

/-- C4 witness: the attribute-missing model falls back to `predict`. -/
theorem claim4_fallback_uses_predict_witness :
    computeProba fallbackPredictModel defaultInputs = .ok (7/10) ∧
    UIEvent.riskHeader (riskLevel (7/10)) (riskColor (7/10))
      ∈ predictHandler fallbackPredictModel defaultInputs ∧
    UIEvent.write ("### Reoperation Probability: " ++ formatPercent (7/10))
      ∈ predictHandler fallbackPredictModel defaultInputs :=
  claim4_fallback_uses_predict fallbackPredictModel defaultInputs defaultInputs
    "object has no attribute \x27predict_proba\x27" [7/10] (7/10) rfl rfl rfl rfl

/-- C5: when deserialising the artifact fails, the run reports the error and
stops; no parameter-entry widget is ever rendered in that run. -/
theorem claim5_load_failure_halts (msg : String) (pressed : Bool)
    (inputs : List (String × Int)) :
    UIEvent.error ("❌ Failed to load model: " ++ msg)
      ∈ runScript true (.error msg) pressed inputs ∧
    UIEvent.stopped ∈ runScript true (.error msg) pressed inputs ∧
    ∀ e ∈ runScript true (.error msg) pressed inputs, e.isNumberInput = false := by
  have hrun : runScript true (Except.error msg) pressed inputs =
      [.success "✅ joblib successfully imported",
       .error ("❌ Failed to load model: " ++ msg),
       .error "Please ensure \x27model.joblib\x27 exists and is a valid joblib file",
       .stopped] := rfl
  refine ⟨by rw [hrun]; simp, by rw [hrun]; simp, ?_⟩
  intro e he
  rw [hrun] at he
  simp only [List.mem_cons, List.not_mem_nil, or_false] at he
  rcases he with rfl | rfl | rfl | rfl <;> rfl

/-- C6: when the model exposes neither `feature_importances_` nor `coef_`,
or the importance retrieval raises for any other reason (an out-of-bounds
`coef_[0]`, a length-mismatch `ValueError` in the frame construction), the
handler still renders the full prediction result and downgrades the failure
to a non-fatal warning plus an info note; no `st.error` is emitted. -/
theorem claim6_importance_missing_warns (model : Model)
    (inputs input_df : List (String × Int)) (p : ℚ)
    (hsel : selectColumns inputs expected_columns = .ok input_df)
    (hp : computeProba model input_df = .ok p)
    (hfail : (model.feature_importances_ = none ∧ model.coef_ = none) ∨
      ∃ err, importanceAttempt model = .error err) :
    ∃ err, importanceAttempt model = .error err ∧
      predictHandler model inputs =
        [.markdown "---",
         .subheader "Prediction Results",
         .riskHeader (riskLevel p) (riskColor p),
         .write ("### Reoperation Probability: " ++ formatPercent p),
         .markdown "---",
         .subheader "Key Risk Factors",
         .warning ("⚠️ Feature importance not available: " ++ err.msg),
         .info "The model does not provide feature importance data"] ∧
      ∀ e ∈ predictHandler model inputs, e.isError = false := by
  have hatt : ∃ err, importanceAttempt model = .error err := by
    rcases hfail with ⟨hfi, hcoef⟩ | h
    · exact ⟨.attributeError "Feature importance not available",
        by simp only [importanceAttempt, retrieveImportance, hfi, hcoef]⟩
    · exact h
  obtain ⟨err, herr⟩ := hatt
  have hsec : importanceSection model =
      [.warning ("⚠️ Feature importance not available: " ++ err.msg),
       .info "The model does not provide feature importance data"] := by
    simp only [importanceSection, herr]
  have hshape := predictHandler_eq_of_ok model inputs input_df p hsel hp
  rw [hshape, hsec]
  refine ⟨err, herr, rfl, ?_⟩
  intro e he
  simp only [List.append_eq, List.cons_append, List.nil_append, List.mem_cons,
    List.not_mem_nil, or_false] at he
  rcases he with rfl | rfl | rfl | rfl | rfl | rfl | rfl | rfl <;> rfl

/-- Classifier whose importance retrieval itself raises: `coef_` exists but
is empty, so `coef_[0]` raises `IndexError` inside the importance block. -/
def emptyCoefModel : Model :=
  { predict_proba := some (fun _ => .ok [[1/2, 1/2]])
    predict := fun _ => .ok [0]
    feature_importances_ := none
    coef_ := some [] }

/-- C6 witness: the empty-`coef_` model at the default record, exercising
the retrieval-raises disjunct of the hypothesis. -/
theorem claim6_importance_missing_warns_witness :
    ∃ err, importanceAttempt emptyCoefModel = .error err ∧
      predictHandler emptyCoefModel defaultInputs =
        [.markdown "---",
         .subheader "Prediction Results",
         .riskHeader (riskLevel (1/2)) (riskColor (1/2)),
         .write ("### Reoperation Probability: " ++ formatPercent (1/2)),
         .markdown "---",
         .subheader "Key Risk Factors",
         .warning ("⚠️ Feature importance not available: " ++ err.msg),
         .info "The model does not provide feature importance data"] ∧
      ∀ e ∈ predictHandler emptyCoefModel defaultInputs, e.isError = false :=
  claim6_importance_missing_warns emptyCoefModel defaultInputs defaultInputs (1/2)
    rfl rfl (Or.inr ⟨.indexError "index 0 is out of bounds", rfl⟩)

/-- C7: after a successful prediction, the importance vector is taken from
`feature_importances_` first, otherwise from the first row of `coef_`; each
value is paired with the schema parameter name at the same position, the
pairs are sorted descending by value, and the result is rendered as a bar
chart and a table. -/
theorem claim7_importance_ranking (model : Model)
    (inputs input_df : List (String × Int)) (p : ℚ) (imp : List ℚ)
    (hsel : selectColumns inputs expected_columns = .ok input_df)
    (hp : computeProba model input_df = .ok p)
    (hret : model.feature_importances_ = some imp ∨
      (model.feature_importances_ = none ∧
        ∃ m, model.coef_ = some m ∧ m.get? 0 = some imp))
    (hlen : imp.length = expected_columns.length) :
    ∃ importance_df,
      predictHandler model inputs =
        [.markdown "---",
         .subheader "Prediction Results",
         .riskHeader (riskLevel p) (riskColor p),
         .write ("### Reoperation Probability: " ++ formatPercent p),
         .markdown "---",
         .subheader "Key Risk Factors",
         .barChart importance_df,
         .dataframe importance_df] ∧
      importance_df.Perm (expected_columns.zip imp) ∧
      List.Sorted (fun a b : String × ℚ => b.2 ≤ a.2) importance_df := by
  have hri : retrieveImportance model = .ok imp := by
    rcases hret with h | ⟨hn, m, hm, h0⟩
    · simp only [retrieveImportance, h]
    · simp only [retrieveImportance, hn, hm, h0]
  have hia : importanceAttempt model =
      .ok (List.insertionSort (fun a b : String × ℚ => b.2 ≤ a.2)
        (expected_columns.zip imp)) := by
    simp only [importanceAttempt, hri, if_pos hlen]
  refine ⟨_, ?_, List.perm_insertionSort (fun a b : String × ℚ => b.2 ≤ a.2)
    (expected_columns.zip imp), ?_⟩
  · rw [predictHandler_eq_of_ok model inputs input_df p hsel hp]
    simp only [importanceSection, hia]
    rfl
  · haveI : IsTotal (String × ℚ) (fun a b => b.2 ≤ a.2) :=
      ⟨fun a b => le_total b.2 a.2⟩
    haveI : IsTrans (String × ℚ) (fun a b => b.2 ≤ a.2) :=
      ⟨fun _ _ _ hab hbc => le_trans hbc hab⟩
    exact List.sorted_insertionSort _ _

/-- Stub classifier exposing a `feature_importances_` vector (one weight per
schema parameter, deliberately out of order). -/
def importanceModel : Model :=
  { predict_proba := some (fun _ => .ok [[3/10, 7/10]])
    predict := fun _ => .ok [1]
    feature_importances_ := some [2, 5, 1, 0, 3, 9, 4, 6, 8, 7, 10]
    coef_ := none }

/-- C7 witness: the importance-bearing model at the default record. -/
theorem claim7_importance_ranking_witness :
    ∃ importance_df,
      predictHandler importanceModel defaultInputs =
        [.markdown "---",
         .subheader "Prediction Results",
         .riskHeader (riskLevel (7/10)) (riskColor (7/10)),
         .write ("### Reoperation Probability: " ++ formatPercent (7/10)),
         .markdown "---",
         .subheader "Key Risk Factors",
         .barChart importance_df,
         .dataframe importance_df] ∧
      importance_df.Perm (expected_columns.zip [2, 5, 1, 0, 3, 9, 4, 6, 8, 7, 10]) ∧
      List.Sorted (fun a b : String × ℚ => b.2 ≤ a.2) importance_df :=
  claim7_importance_ranking importanceModel defaultInputs defaultInputs (7/10)
    [2, 5, 1, 0, 3, 9, 4, 6, 8, 7, 10] rfl rfl (Or.inl rfl) rfl

/-- Stub classifier whose probability row is `[1 - p, p]`, mirroring the
spec's example scenarios; it has no importance data. -/
def stubModel (p : ℚ) : Model :=
  { predict_proba := some (fun _ => .ok [[1 - p, p]])
    predict := fun _ => .ok [if p > 1/2 then 1 else 0]
    feature_importances_ := none
    coef_ := none }

/-- Event trace of the handler against `stubModel p` on the default record. -/
theorem stubModel_handler_eq (p : ℚ) :
    predictHandler (stubModel p) defaultInputs =
      [.markdown "---",
       .subheader "Prediction Results",
       .riskHeader (riskLevel p) (riskColor p),
       .write ("### Reoperation Probability: " ++ formatPercent p),
       .markdown "---",
       .subheader "Key Risk Factors",
       .warning "⚠️ Feature importance not available: Feature importance not available",
       .info "The model does not provide feature importance data"] := rfl

/-- C8: on the schema-default record, a stub returning probability 0.73
renders "High Risk" with "73.0%", and the same stub returning 0.5 renders
"Low Risk" with "50.0%" (percentage to one decimal place in both cases). -/
theorem claim8_example_scenarios :
    (UIEvent.riskHeader "High Risk" "#FF4B4B"
        ∈ predictHandler (stubModel (73/100)) defaultInputs ∧
     UIEvent.write "### Reoperation Probability: 73.0%"
        ∈ predictHandler (stubModel (73/100)) defaultInputs) ∧
    (UIEvent.riskHeader "Low Risk" "#00CC96"
        ∈ predictHandler (stubModel (1/2)) defaultInputs ∧
     UIEvent.write "### Reoperation Probability: 50.0%"
        ∈ predictHandler (stubModel (1/2)) defaultInputs) := by
  have h73 := stubModel_handler_eq (73/100)
  rw [riskLevel_73, riskColor_73, formatPercent_73] at h73
  have h50 := stubModel_handler_eq (1/2)
  rw [riskLevel_half, riskColor_half, formatPercent_half] at h50
  exact ⟨⟨by rw [h73]; simp, by rw [h73]; simp⟩,
         ⟨by rw [h50]; simp, by rw [h50]; simp⟩⟩

/-- Importance vector used by the fallback counterexample (already in
descending order, one weight per schema parameter). -/
def descendingImportance : List ℚ := [11, 10, 9, 8, 7, 6, 5, 4, 3, 2, 1]

/-- Classifier with no `predict_proba` whose plain `predict` answers the
class label 1; it does expose `feature_importances_`, so the importance
block succeeds and emits no warning of its own. -/
def silentFallbackModel : Model :=
  { predict_proba := none
    predict := fun _ => .ok [1]
    feature_importances_ := some descendingImportance
    coef_ := none }

/-- C9 counterexample: the fallback path is taken (the class label 1 from
`predict` is displayed as "100.0%") yet the run emits no warning event at
all — the code silently presents the `predict` output as a percentage. -/
theorem claim9_fallback_emits_no_warning :
    computeProba silentFallbackModel defaultInputs = .ok 1 ∧
    UIEvent.write "### Reoperation Probability: 100.0%"
      ∈ predictHandler silentFallbackModel defaultInputs ∧
    ∀ e ∈ predictHandler silentFallbackModel defaultInputs, e.isWarning = false := by
  have hcp : computeProba silentFallbackModel defaultInputs = .ok 1 := rfl
  have hsec : importanceSection silentFallbackModel =
      [.barChart (expected_columns.zip descendingImportance),
       .dataframe (expected_columns.zip descendingImportance)] := rfl
  have hshape := predictHandler_eq_of_ok silentFallbackModel defaultInputs
    defaultInputs 1 rfl hcp
  rw [riskLevel_one, formatPercent_one, hsec] at hshape
  refine ⟨hcp, by rw [hshape]; simp, ?_⟩
  intro e he
  rw [hshape] at he
  simp only [List.append_eq, List.cons_append, List.nil_append, List.mem_cons,
    List.not_mem_nil, or_false] at he
  rcases he with rfl | rfl | rfl | rfl | rfl | rfl | rfl | rfl <;> rfl

/-- C10: the fallback is triggered exactly by an `AttributeError` from the
`predict_proba` attempt (even when the attribute exists and its call raises
it), while any other exception skips the fallback, reaches the outer
handler, is reported as a prediction failure, and the run is not halted —
the form stays rendered for a retry. -/
theorem claim10_attribute_error_scope (model : Model)
    (inputs input_df : List (String × Int))
    (f : List (String × Int) → Except PyErr (List (List ℚ)))
    (hsel : selectColumns inputs expected_columns = .ok input_df)
    (hpp : model.predict_proba = some f) :
    (∀ m, f input_df = .error (.attributeError m) →
      computeProba model input_df = fallbackProba model input_df) ∧
    (∀ e, f input_df = .error e → e.isAttributeError = false →
      computeProba model input_df = .error e ∧
      predictHandler model inputs =
        [.error ("❌ Prediction failed: " ++ e.msg),
         .error "Please check your input values and try again"] ∧
      runScript true (.ok model) true inputs =
        UIEvent.success "✅ joblib successfully imported" ::
          ([UIEvent.success "✅ Model loaded successfully",
            UIEvent.title "Unplanned Reoperation Risk Prediction System",
            UIEvent.markdown "---"]
           ++ renderForm
           ++ [UIEvent.error ("❌ Prediction failed: " ++ e.msg),
               UIEvent.error "Please check your input values and try again"]
           ++ sidebarEvents) ∧
      UIEvent.stopped ∉ runScript true (.ok model) true inputs) := by
  constructor
  · intro m hm
    have hpc : probaCall model input_df = .error (.attributeError m) := by
      simp only [probaCall, hpp, hm]
    simp only [computeProba, hpc, PyErr.isAttributeError, if_true]
  · intro e he hnotattr
    have hpc : probaCall model input_df = .error e := by
      simp only [probaCall, hpp, he]
    have hcp : computeProba model input_df = .error e := by
      simp only [computeProba, hpc, hnotattr, Bool.false_eq_true, if_false]
    have hhandler : predictHandler model inputs =
        [.error ("❌ Prediction failed: " ++ e.msg),
         .error "Please check your input values and try again"] := by
      simp only [predictHandler, hsel, hcp]
    have hrun : runScript true (.ok model) true inputs =
        UIEvent.success "✅ joblib successfully imported" ::
          ([UIEvent.success "✅ Model loaded successfully",
            UIEvent.title "Unplanned Reoperation Risk Prediction System",
            UIEvent.markdown "---"]
           ++ renderForm
           ++ predictHandler model inputs
           ++ sidebarEvents) := rfl
    rw [hhandler] at hrun
    refine ⟨hcp, hhandler, hrun, ?_⟩
    rw [hrun]
    simp [renderForm, sidebarEvents, VARIABLE_CONFIG]

/-- Classifier whose `predict_proba` exists but raises a non-`AttributeError`
exception (a bad input shape). -/
def badShapeModel : Model :=
  { predict_proba := some (fun _ => .error (.otherError "bad input shape"))
    predict := fun _ => .ok [0]
    feature_importances_ := none
    coef_ := none }

/-- C10 witness: instantiated at `badShapeModel` on the default record. -/
theorem claim10_attribute_error_scope_witness :
    (∀ m, (Except.error (PyErr.otherError "bad input shape") : Except PyErr (List (List ℚ)))
        = .error (.attributeError m) →
      computeProba badShapeModel defaultInputs = fallbackProba badShapeModel defaultInputs) ∧
    (∀ e, (Except.error (PyErr.otherError "bad input shape") : Except PyErr (List (List ℚ)))
        = .error e → e.isAttributeError = false →
      computeProba badShapeModel defaultInputs = .error e ∧
      predictHandler badShapeModel defaultInputs =
        [.error ("❌ Prediction failed: " ++ e.msg),
         .error "Please check your input values and try again"] ∧
      runScript true (.ok badShapeModel) true defaultInputs =
        UIEvent.success "✅ joblib successfully imported" ::
          ([UIEvent.success "✅ Model loaded successfully",
            UIEvent.title "Unplanned Reoperation Risk Prediction System",
            UIEvent.markdown "---"]
           ++ renderForm
           ++ [UIEvent.error ("❌ Prediction failed: " ++ e.msg),
               UIEvent.error "Please check your input values and try again"]
           ++ sidebarEvents) ∧
      UIEvent.stopped ∉ runScript true (.ok badShapeModel) true defaultInputs) :=
  claim10_attribute_error_scope badShapeModel defaultInputs defaultInputs _ rfl rfl

end SevenApp
